import Mathlib

/-!
Verification of the Canadian tax calculation and optimization engine of the
`ai-tax-assistant-tool` repository.  The numeric code is embedded shallowly:
JavaScript numbers become rationals (`ℚ`), `Math.round` becomes `roundJS`
(round half up), `Math.min`/`Math.max` become `min`/`max`, and record results
become Lean structures.  Definitions follow the source files
`backend/server.js` and `frontend/src/components/taxCalculations.tsx`.
-/

namespace TaxEngine

/-- JavaScript `Math.round` on a non-negative number: round half toward
positive infinity. -/
def roundJS (x : ℚ) : ℤ := ⌊x + 1 / 2⌋

namespace Backend

/-- `server.js` line 155: `const basicPersonalAmount = 15705`. -/
def basicPersonalAmount : ℚ := 15705

/-- `server.js` line 156: `Math.max(deductions, basicPersonalAmount)`. -/
def totalDeductionsOf (deductions : ℚ) : ℚ := max deductions basicPersonalAmount

/-- `server.js` line 157: `Math.max(0, income - totalDeductions)`. -/
def taxableIncomeOf (income deductions : ℚ) : ℚ :=
  max 0 (income - totalDeductionsOf deductions)

/-- `server.js` lines 160-173: the closed-form federal bracket computation
with precomputed base-tax constants (Federal Tax Brackets 2024). -/
def federalTaxOn (taxableIncome : ℚ) : ℚ :=
  if taxableIncome > 0 then
    if taxableIncome ≤ 55867 then taxableIncome * 0.15
    else if taxableIncome ≤ 111733 then 8380 + (taxableIncome - 55867) * 0.205
    else if taxableIncome ≤ 173205 then 19822 + (taxableIncome - 111733) * 0.26
    else if taxableIncome ≤ 246752 then 35814 + (taxableIncome - 173205) * 0.29
    else 57168 + (taxableIncome - 246752) * 0.33
  else 0

/-- `server.js` lines 175-189: Ontario provincial brackets; any other
province leaves `provincialTax` at `0`. -/
def provincialTaxOn (province : String) (taxableIncome : ℚ) : ℚ :=
  if province = "ON" ∧ taxableIncome > 11865 then
    if taxableIncome ≤ 51446 then (taxableIncome - 11865) * 0.0505
    else if taxableIncome ≤ 102894 then 2000 + (taxableIncome - 51446) * 0.0915
    else if taxableIncome ≤ 150000 then 6708 + (taxableIncome - 102894) * 0.1116
    else if taxableIncome ≤ 220000 then 11966 + (taxableIncome - 150000) * 0.1216
    else 20478 + (taxableIncome - 220000) * 0.1316
  else 0

/-- `server.js` line 192: `const maxCppEarnings = 68500`. -/
def maxCppEarnings : ℚ := 68500

/-- `server.js` line 193: `const cppExemption = 3500`. -/
def cppExemption : ℚ := 3500

/-- `server.js` line 194: `const cppRate = 0.0595`. -/
def cppRate : ℚ := 0.0595

/-- `server.js` line 195: CPP contribution, capped by the derived maximum
`(maxCppEarnings - cppExemption) * cppRate`. -/
def cppContributionOf (income : ℚ) : ℚ :=
  min (max 0 (income - cppExemption) * cppRate) ((maxCppEarnings - cppExemption) * cppRate)

/-- `server.js` line 197: `const maxEiEarnings = 65700`. -/
def maxEiEarnings : ℚ := 65700

/-- `server.js` line 198: `const eiRate = 0.0229`. -/
def eiRate : ℚ := 0.0229

/-- `server.js` line 199: EI contribution, capped at `maxEiEarnings * eiRate`. -/
def eiContributionOf (income : ℚ) : ℚ :=
  min (income * eiRate) (maxEiEarnings * eiRate)

/-- `server.js` line 206: `Math.min(income * 0.18, 31560)`. -/
def rrspRoomOf (income : ℚ) : ℚ := min (income * 0.18) 31560

/-- `server.js` lines 228-232: `getMarginalRate` over the 2024 federal
bracket thresholds (as percentages). -/
def getMarginalRate (taxableIncome : ℚ) : ℚ :=
  if taxableIncome ≤ 55867 then 15
  else if taxableIncome ≤ 111733 then 20.5
  else if taxableIncome ≤ 173205 then 26
  else if taxableIncome ≤ 246752 then 29
  else 33

/-- The result record of `calculateCanadianTax` (`server.js` lines 209-223);
monetary fields pass through `Math.round`, `effectiveRate` is rounded to two
decimals, `tfsaRoom` and `marginalRate` are returned unrounded. -/
structure TaxCalcResult where
  tax : ℤ
  federalTax : ℤ
  provincialTax : ℤ
  cppContribution : ℤ
  eiContribution : ℤ
  refund : ℤ
  effectiveRate : ℚ
  taxableIncome : ℤ
  basicPersonalAmount : ℚ
  rrspRoom : ℤ
  tfsaRoom : ℚ
  marginalRate : ℚ
deriving DecidableEq

/-- `server.js` lines 154-224: `calculateCanadianTax(income, deductions,
filingStatus, province)`.  `filingStatus` is accepted but never read, exactly
as in the source. -/
def calculateCanadianTax (income deductions : ℚ) (filingStatus province : String) : TaxCalcResult :=
  let _ := filingStatus
  let taxableIncome := taxableIncomeOf income deductions
  let federalTax := federalTaxOn taxableIncome
  let provincialTax := provincialTaxOn province taxableIncome
  let cppContribution := cppContributionOf income
  let eiContribution := eiContributionOf income
  let totalTax := federalTax + provincialTax
  let totalTaxAndContributions := totalTax + cppContribution + eiContribution
  let effectiveRate := if income > 0 then totalTaxAndContributions / income * 100 else 0
  let estimatedWithholdings := income * 0.18
  let refund := max 0 (estimatedWithholdings - totalTaxAndContributions)
  let rrspRoom := rrspRoomOf income
  { tax := roundJS totalTaxAndContributions
    federalTax := roundJS federalTax
    provincialTax := roundJS provincialTax
    cppContribution := roundJS cppContribution
    eiContribution := roundJS eiContribution
    refund := roundJS refund
    effectiveRate := (roundJS (effectiveRate * 100) : ℚ) / 100
    taxableIncome := roundJS taxableIncome
    basicPersonalAmount := basicPersonalAmount
    rrspRoom := roundJS rrspRoom
    tfsaRoom := 7000
    marginalRate := getMarginalRate taxableIncome }

/-- `server.js` lines 2459-2463: the chat helper `calculateCppEi`, which uses
the flat literal caps `4055` and `1505` instead of the derived caps of
`calculateCanadianTax`. -/
def svcCalculateCppEi (income : ℚ) : ℚ × ℚ :=
  (min (max 0 (income - 3500) * 0.0595) 4055, min (income * 0.0229) 1505)

/-- Entry of the `provinceData` table of `getProvinceInfo`
(`server.js` lines 2465-2482). -/
structure ProvinceInfo where
  name : String
  basicPersonal : ℚ
deriving DecidableEq

/-- The Ontario entry, which is also the fallback value of
`getProvinceInfo`. -/
def ontarioInfo : ProvinceInfo := ⟨"Ontario", 11865⟩

/-- `server.js` lines 2466-2479: the `provinceData` table. -/
def provinceData : List (String × ProvinceInfo) :=
  [("ON", ontarioInfo),
   ("BC", ⟨"British Columbia", 11980⟩),
   ("AB", ⟨"Alberta", 21003⟩),
   ("SK", ⟨"Saskatchewan", 17661⟩),
   ("MB", ⟨"Manitoba", 15000⟩),
   ("QC", ⟨"Quebec", 18056⟩),
   ("NB", ⟨"New Brunswick", 12458⟩),
   ("NS", ⟨"Nova Scotia", 8744⟩),
   ("PE", ⟨"Prince Edward Island", 12500⟩),
   ("NL", ⟨"Newfoundland and Labrador", 10382⟩),
   ("YT", ⟨"Yukon", 15705⟩),
   ("NT", ⟨"Northwest Territories", 16593⟩),
   ("NU", ⟨"Nunavut", 18767⟩)]

/-- `server.js` lines 2465-2482: `getProvinceInfo(province)` returns
`provinceData[province] || provinceData['ON']`. -/
def getProvinceInfo (province : String) : ProvinceInfo :=
  (provinceData.lookup province).getD ontarioInfo

/-- `server.js` lines 2449-2453: the flat provincial rate table of the chat
helper `calculateProvincialTax`. -/
def svcRates : List (String × ℚ) :=
  [("ON", 0.0505), ("BC", 0.0506), ("AB", 0.10), ("SK", 0.105),
   ("MB", 0.1075), ("QC", 0.14), ("NB", 0.095), ("NS", 0.0879),
   ("PE", 0.098), ("NL", 0.087), ("YT", 0.064), ("NT", 0.059), ("NU", 0.04)]

/-- `server.js` lines 2445-2457: the chat helper `calculateProvincialTax`,
with `rates[province] || rates['ON']` fallback. -/
def svcCalculateProvincialTax (income : ℚ) (province : String) : ℚ :=
  let info := getProvinceInfo province
  let taxableIncome := max 0 (income - info.basicPersonal)
  taxableIncome * ((svcRates.lookup province).getD 0.0505)

end Backend

namespace Frontend

/-- One row of `TAX_BRACKETS_2024.federal` in `taxCalculations.tsx`
(lines 5-12); `hi = none` encodes the `Infinity` upper bound of the top
bracket. -/
structure Bracket where
  lo : ℚ
  hi : Option ℚ
  rate : ℚ

/-- `taxCalculations.tsx` lines 5-12: the 2024 federal bracket table. -/
def federalBrackets : List Bracket :=
  [⟨0, some 55867, 0.15⟩,
   ⟨55867, some 111733, 0.205⟩,
   ⟨111733, some 173205, 0.26⟩,
   ⟨173205, some 246752, 0.29⟩,
   ⟨246752, none, 0.33⟩]

/-- The loop body of `calculateFederalTax` (`taxCalculations.tsx` lines
47-60): walk the brackets, taxing `min(remainingIncome, max - min)` at each
rate, stopping once the remaining income is exhausted.  For the open-ended
top bracket `Math.min(remaining, Infinity) = remaining`. -/
def federalTaxLoop : List Bracket → ℚ → ℚ → ℚ
  | [], _, tax => tax
  | b :: rest, remainingIncome, tax =>
    if remainingIncome ≤ 0 then tax
    else
      let taxableAtBracket :=
        match b.hi with
        | some m => min remainingIncome (m - b.lo)
        | none => remainingIncome
      federalTaxLoop rest (remainingIncome - taxableAtBracket)
        (tax + taxableAtBracket * b.rate)

/-- `taxCalculations.tsx` lines 47-60: the iterative per-bracket federal tax
computation. -/
def calculateFederalTax (taxableIncome : ℚ) : ℚ :=
  federalTaxLoop federalBrackets taxableIncome 0

/-- `taxCalculations.tsx` lines 65-69: `calculateCPP`. -/
def calculateCPP (income : ℚ) : ℚ :=
  max 0 (min income 68500 - 3500) * 0.0595

/-- `taxCalculations.tsx` lines 74-78: `calculateEI`. -/
def calculateEI (income : ℚ) : ℚ :=
  min income 65700 * 0.0229

/-- `taxCalculations.tsx` lines 28-42: `PROVINCIAL_TAX_RATES`. -/
def PROVINCIAL_TAX_RATES : List (String × ℚ) :=
  [("ontario", 0.10), ("quebec", 0.12), ("british_columbia", 0.095),
   ("alberta", 0.08), ("manitoba", 0.105), ("saskatchewan", 0.095),
   ("nova_scotia", 0.11), ("new_brunswick", 0.105), ("newfoundland", 0.115),
   ("pei", 0.105), ("northwest_territories", 0.09), ("nunavut", 0.09),
   ("yukon", 0.085)]

/-- `taxCalculations.tsx` lines 83-86: `calculateProvincialTax`, with the
`|| PROVINCIAL_TAX_RATES.ontario` fallback (Ontario rate `0.10`). -/
def calculateProvincialTax (taxableIncome : ℚ) (province : String) : ℚ :=
  taxableIncome * ((PROVINCIAL_TAX_RATES.lookup province).getD 0.10)

/-- `taxCalculations.tsx` line 129: `maxRRSPContribution` inside
`calculateRRSPOptimization`, `Math.min(income * 0.18, rrspLimit)` with
`rrspLimit = 31560`. -/
def maxRRSPContribution (income : ℚ) : ℚ :=
  min (income * 0.18) 31560

end Frontend

namespace Comparator

/-- Modelled from the spec: the backend `compare-provinces` endpoint that the
frontend caller in `part_005` posts to is not among the provided source
files, so the comparator is taken from spec section 4.7: it calls the
engine's calculate once per province with the same income, deductions and
filing status, sorts the results ascending by total tax, picks the first as
best and the last as worst, sets `potentialSavings = worst.totalTax -
best.totalTax`, and fails with an `InvalidInputError` when the province set
size lies outside `[2, 5]`. -/
inductive CompareError where
  | invalidInput
deriving DecidableEq

/-- Modelled from the spec: `ComparisonResult` of spec section 3 — the
per-province results, the best and worst entries, and the potential
savings. -/
structure ComparisonResult where
  perProvince : List (String × Backend.TaxCalcResult)
  best : String × Backend.TaxCalcResult
  worst : String × Backend.TaxCalcResult
  potentialSavings : ℤ

/-- Ordering of per-province results by total tax, used for the ascending
sort of the comparator. -/
def taxLE (a b : String × Backend.TaxCalcResult) : Prop :=
  a.2.tax ≤ b.2.tax

instance : DecidableRel taxLE :=
  fun a b => inferInstanceAs (Decidable (a.2.tax ≤ b.2.tax))

instance : IsTotal (String × Backend.TaxCalcResult) taxLE :=
  ⟨fun a b => Int.le_total a.2.tax b.2.tax⟩

instance : IsTrans (String × Backend.TaxCalcResult) taxLE :=
  ⟨fun _ _ _ h1 h2 => le_trans h1 h2⟩

/-- Modelled from the spec (section 4.7): the province comparison operation.
The engine invoked per province is the embedded backend
`calculateCanadianTax`. -/
def compareProvinces (income deductions : ℚ) (filingStatus : String)
    (provinces : List String) : Except CompareError ComparisonResult :=
  if provinces.length < 2 ∨ 5 < provinces.length then
    Except.error CompareError.invalidInput
  else
    match (provinces.map fun p =>
        (p, Backend.calculateCanadianTax income deductions filingStatus p)).insertionSort taxLE with
    | [] => Except.error CompareError.invalidInput
    | b :: rest =>
      let w := rest.getLastD b
      Except.ok ⟨b :: rest, b, w, w.2.tax - b.2.tax⟩

end Comparator

/-- Claim C1, counterexample: at the worked Ontario 2024 scenario
(`income = 75000`, `deductions = 15705`, `single`, `ON`) the backend
calculation does not return `cppContribution = 4055` and does not return a
total of `17361`: its CPP cap is the derived `(68500 - 3500) * 0.0595 =
3867.5`, not the flat literal `4055`. -/
theorem worked_scenario_2024_counterexample :
    (Backend.calculateCanadianTax 75000 15705 "single" "ON").cppContribution ≠ 4055 ∧
    (Backend.calculateCanadianTax 75000 15705 "single" "ON").tax ≠ 17361 := by
  simp only [Backend.calculateCanadianTax, Backend.taxableIncomeOf, Backend.totalDeductionsOf,
    Backend.basicPersonalAmount, Backend.federalTaxOn, Backend.provincialTaxOn,
    Backend.cppContributionOf, Backend.eiContributionOf, Backend.rrspRoomOf,
    Backend.maxCppEarnings, Backend.cppExemption, Backend.cppRate, Backend.maxEiEarnings,
    Backend.eiRate, Backend.getMarginalRate, roundJS, min_def, max_def]
  norm_num

/-- Claim C1, amended: at the worked Ontario 2024 scenario the backend
calculation returns `taxableIncome = 59295`, `federalTax = 9083`,
`provincialTax = 2718`, `cppContribution = 3868` (the derived cap `3867.5`
rounded), `eiContribution = 1505`, total tax and contributions `17173`,
effective rate `22.9`, marginal rate `20.5`, `rrspRoom = 13500` and
`tfsaRoom = 7000`; the claimed figures `cpp = 4055` and `ei = 1505` are
produced by the separate chat helper `calculateCppEi` with its flat literal
caps. -/
theorem worked_scenario_2024_amended :
    (Backend.calculateCanadianTax 75000 15705 "single" "ON").taxableIncome = 59295 ∧
    (Backend.calculateCanadianTax 75000 15705 "single" "ON").federalTax = 9083 ∧
    (Backend.calculateCanadianTax 75000 15705 "single" "ON").provincialTax = 2718 ∧
    (Backend.calculateCanadianTax 75000 15705 "single" "ON").cppContribution = 3868 ∧
    (Backend.calculateCanadianTax 75000 15705 "single" "ON").eiContribution = 1505 ∧
    (Backend.calculateCanadianTax 75000 15705 "single" "ON").tax = 17173 ∧
    (Backend.calculateCanadianTax 75000 15705 "single" "ON").effectiveRate = 22.9 ∧
    (Backend.calculateCanadianTax 75000 15705 "single" "ON").marginalRate = 20.5 ∧
    (Backend.calculateCanadianTax 75000 15705 "single" "ON").rrspRoom = 13500 ∧
    (Backend.calculateCanadianTax 75000 15705 "single" "ON").tfsaRoom = 7000 ∧
    Backend.svcCalculateCppEi 75000 = (4055, 1505) := by
  simp only [Backend.calculateCanadianTax, Backend.taxableIncomeOf, Backend.totalDeductionsOf,
    Backend.basicPersonalAmount, Backend.federalTaxOn, Backend.provincialTaxOn,
    Backend.cppContributionOf, Backend.eiContributionOf, Backend.rrspRoomOf,
    Backend.maxCppEarnings, Backend.cppExemption, Backend.cppRate, Backend.maxEiEarnings,
    Backend.eiRate, Backend.getMarginalRate, Backend.svcCalculateCppEi, roundJS,
    min_def, max_def]
  norm_num

/-- Claim C2: for every income and deductions, the taxable income computed by
the engine equals `max 0 (income - max deductions 15705)`, so the federal
basic personal amount `15705` floors the supplied deduction amount even when
the caller supplies a smaller figure. -/
theorem taxableIncome_bpa_floor (income deductions : ℚ)
    (hi : 0 ≤ income) (hd : 0 ≤ deductions) :
    Backend.taxableIncomeOf income deductions = max 0 (income - max deductions 15705) ∧
    (deductions ≤ 15705 →
      Backend.taxableIncomeOf income deductions = max 0 (income - 15705)) := by
  constructor
  · rfl
  · intro hsmall
    unfold Backend.taxableIncomeOf Backend.totalDeductionsOf Backend.basicPersonalAmount
    rw [max_eq_right hsmall]

/-- Claim C2, witness: at `income = 75000`, `deductions = 5000` the supplied
deduction is below the BPA and the taxable income is `75000 - 15705 =
59295`. -/
theorem taxableIncome_bpa_floor_witness :
    Backend.taxableIncomeOf 75000 5000 = max 0 (75000 - max 5000 15705) ∧
    ((5000 : ℚ) ≤ 15705 → Backend.taxableIncomeOf 75000 5000 = max 0 (75000 - 15705)) :=
  taxableIncome_bpa_floor 75000 5000 (by norm_num) (by norm_num)

/-- Claim C3, counterexample: at `taxableIncome = 55868` the backend
closed-form federal computation gives `8380 + 1 * 0.205 = 8380.205` while the
frontend iterative computation gives `55867 * 0.15 + 1 * 0.205 = 8380.255`;
the precomputed base constant `8380` is not the exact cumulative
`55867 * 0.15 = 8380.05`, so the two forms are not equal there. -/
theorem federal_closed_iterative_disagree :
    Backend.federalTaxOn 55868 ≠ Frontend.calculateFederalTax 55868 := by
  norm_num [Backend.federalTaxOn, Frontend.calculateFederalTax, Frontend.federalBrackets,
    Frontend.federalTaxLoop, min_def]

/-- Claim C3, amended: the closed-form and the iterative federal computation
agree exactly on the first bracket, `0 ≤ taxableIncome ≤ 55867`; above that
bracket they differ, because the closed form's precomputed base-tax constants
(`8380`, `19822`, `35814`, `57168`) are not the exact cumulative bracket
sums. -/
theorem federal_closed_eq_iterative_first_bracket (t : ℚ)
    (h0 : 0 ≤ t) (h1 : t ≤ 55867) :
    Backend.federalTaxOn t = Frontend.calculateFederalTax t := by
  rcases eq_or_lt_of_le h0 with hz | hp
  · rw [← hz]
    norm_num [Backend.federalTaxOn, Frontend.calculateFederalTax, Frontend.federalBrackets,
      Frontend.federalTaxLoop]
  · have hmin : min t (55867 - 0 : ℚ) = t := min_eq_left (by linarith)
    simp only [Backend.federalTaxOn, Frontend.calculateFederalTax, Frontend.federalBrackets,
      Frontend.federalTaxLoop, hmin]
    rw [if_pos hp, if_pos h1, if_neg (not_le.mpr hp)]
    norm_num

/-- Claim C3 witness: at `taxableIncome = 300` both federal computations
return `45`. -/
theorem federal_closed_eq_iterative_first_bracket_witness :
    Backend.federalTaxOn 300 = Frontend.calculateFederalTax 300 :=
  federal_closed_eq_iterative_first_bracket 300 (by norm_num) (by norm_num)

/-- Claim C4: for every income the CPP contribution is at most the configured
cap `(maxCppEarnings - cppExemption) * cppRate` and the EI contribution is at
most `maxEiEarnings * eiRate` (both in the backend calculation and in the
frontend helpers), and from income `10,000,000` on each contribution equals
its cap exactly. -/
theorem contribution_caps (income : ℚ) (h0 : 0 ≤ income) :
    Backend.cppContributionOf income ≤
      (Backend.maxCppEarnings - Backend.cppExemption) * Backend.cppRate ∧
    Backend.eiContributionOf income ≤ Backend.maxEiEarnings * Backend.eiRate ∧
    Frontend.calculateCPP income ≤
      (Backend.maxCppEarnings - Backend.cppExemption) * Backend.cppRate ∧
    Frontend.calculateEI income ≤ Backend.maxEiEarnings * Backend.eiRate ∧
    (10000000 ≤ income →
      Backend.cppContributionOf income =
        (Backend.maxCppEarnings - Backend.cppExemption) * Backend.cppRate ∧
      Backend.eiContributionOf income = Backend.maxEiEarnings * Backend.eiRate ∧
      Frontend.calculateCPP income =
        (Backend.maxCppEarnings - Backend.cppExemption) * Backend.cppRate ∧
      Frontend.calculateEI income = Backend.maxEiEarnings * Backend.eiRate) := by
  simp only [Backend.cppContributionOf, Backend.eiContributionOf, Frontend.calculateCPP,
    Frontend.calculateEI, Backend.maxCppEarnings, Backend.cppExemption, Backend.cppRate,
    Backend.maxEiEarnings, Backend.eiRate]
  refine ⟨min_le_right _ _, min_le_right _ _, ?_, ?_, ?_⟩
  · have h1 : min income 68500 - 3500 ≤ (68500 : ℚ) - 3500 := by
      have := min_le_right income (68500 : ℚ)
      linarith
    have h2 : max 0 (min income 68500 - 3500) ≤ (68500 : ℚ) - 3500 :=
      max_le (by norm_num) h1
    exact mul_le_mul_of_nonneg_right h2 (by norm_num)
  · exact mul_le_mul_of_nonneg_right (min_le_right _ _) (by norm_num)
  · intro hbig
    have hc1 : max 0 (income - 3500) = income - 3500 := max_eq_right (by linarith)
    have hc2 : ((68500 : ℚ) - 3500) * 0.0595 ≤ max 0 (income - 3500) * 0.0595 := by
      rw [hc1]
      exact mul_le_mul_of_nonneg_right (by linarith) (by norm_num)
    have he2 : (65700 : ℚ) * 0.0229 ≤ income * 0.0229 :=
      mul_le_mul_of_nonneg_right (by linarith) (by norm_num)
    have hf1 : min income (68500 : ℚ) = 68500 := min_eq_right (by linarith)
    have hf2 : min income (65700 : ℚ) = 65700 := min_eq_right (by linarith)
    refine ⟨min_eq_right hc2, min_eq_right he2, ?_, ?_⟩
    · rw [hf1]
      norm_num
    · rw [hf2]

/-- Claim C4 witness: at `income = 10000000` both contributions sit exactly
at their caps. -/
theorem contribution_caps_witness :
    Backend.cppContributionOf 10000000 =
      (Backend.maxCppEarnings - Backend.cppExemption) * Backend.cppRate ∧
    Backend.eiContributionOf 10000000 = Backend.maxEiEarnings * Backend.eiRate := by
  have h := (contribution_caps 10000000 (by norm_num)).2.2.2.2 (by norm_num)
  exact ⟨h.1, h.2.1⟩

/-- Claim C6: an unrecognized province code does not fail: the backend
`getProvinceInfo` resolves it to the Ontario profile, and both the chat
helper's provincial computation and the frontend's provincial computation
complete with the Ontario default. -/
theorem unknown_province_fallback (code : String) (income : ℚ)
    (h1 : Backend.provinceData.lookup code = none)
    (h2 : Backend.svcRates.lookup code = none)
    (h3 : Frontend.PROVINCIAL_TAX_RATES.lookup code = none) :
    Backend.getProvinceInfo code = Backend.ontarioInfo ∧
    Backend.svcCalculateProvincialTax income code =
      Backend.svcCalculateProvincialTax income "ON" ∧
    Frontend.calculateProvincialTax income code =
      Frontend.calculateProvincialTax income "ontario" := by
  refine ⟨?_, ?_, ?_⟩
  · unfold Backend.getProvinceInfo
    rw [h1]
    rfl
  · unfold Backend.svcCalculateProvincialTax Backend.getProvinceInfo
    rw [h1, h2]
    rfl
  · unfold Frontend.calculateProvincialTax
    rw [h3]
    rfl

/-- Claim C6 witness: the syntactically valid but unrecognized code `"ZZ"`
falls back to Ontario everywhere. -/
theorem unknown_province_fallback_witness :
    Backend.getProvinceInfo "ZZ" = Backend.ontarioInfo ∧
    Backend.svcCalculateProvincialTax 50000 "ZZ" =
      Backend.svcCalculateProvincialTax 50000 "ON" ∧
    Frontend.calculateProvincialTax 50000 "ZZ" =
      Frontend.calculateProvincialTax 50000 "ontario" :=
  unknown_province_fallback "ZZ" 50000 (by rfl) (by rfl) (by rfl)

/-- Claim C8: at income `0` every component of the backend calculation is
zero, and the effective-rate division by income is guarded by the
`income > 0` test, so the effective rate is `0` as well. -/
theorem zero_income_all_zero (deductions : ℚ) (filingStatus province : String)
    (hd : 0 ≤ deductions) :
    (Backend.calculateCanadianTax 0 deductions filingStatus province).taxableIncome = 0 ∧
    (Backend.calculateCanadianTax 0 deductions filingStatus province).federalTax = 0 ∧
    (Backend.calculateCanadianTax 0 deductions filingStatus province).provincialTax = 0 ∧
    (Backend.calculateCanadianTax 0 deductions filingStatus province).cppContribution = 0 ∧
    (Backend.calculateCanadianTax 0 deductions filingStatus province).eiContribution = 0 ∧
    (Backend.calculateCanadianTax 0 deductions filingStatus province).effectiveRate = 0 := by
  have ht : Backend.taxableIncomeOf 0 deductions = 0 := by
    unfold Backend.taxableIncomeOf Backend.totalDeductionsOf Backend.basicPersonalAmount
    have hb : (15705 : ℚ) ≤ max deductions 15705 := le_max_right _ _
    rw [max_eq_left (by linarith : (0 : ℚ) - max deductions 15705 ≤ 0)]
  simp only [Backend.calculateCanadianTax, ht, Backend.federalTaxOn, Backend.provincialTaxOn,
    Backend.cppContributionOf, Backend.eiContributionOf, Backend.rrspRoomOf,
    Backend.maxCppEarnings, Backend.cppExemption, Backend.cppRate, Backend.maxEiEarnings,
    Backend.eiRate, roundJS, min_def, max_def]
  norm_num

/-- Claim C8 witness: at income `0` with deductions `20000` all components
are zero. -/
theorem zero_income_all_zero_witness :
    (Backend.calculateCanadianTax 0 20000 "single" "ON").taxableIncome = 0 ∧
    (Backend.calculateCanadianTax 0 20000 "single" "ON").federalTax = 0 ∧
    (Backend.calculateCanadianTax 0 20000 "single" "ON").provincialTax = 0 ∧
    (Backend.calculateCanadianTax 0 20000 "single" "ON").cppContribution = 0 ∧
    (Backend.calculateCanadianTax 0 20000 "single" "ON").eiContribution = 0 ∧
    (Backend.calculateCanadianTax 0 20000 "single" "ON").effectiveRate = 0 :=
  zero_income_all_zero 20000 "single" "ON" (by norm_num)

/-- Claim C5: the backend total tax is not monotone in income — the
third-bracket base constant `19822` (which is below the exact cumulative
`8380 + (111733 - 55867) * 0.205 = 19832.53`) makes the rounded total of
income `127439` (`32889`) fall below the total of income `127438` (`32899`)
with deductions `0` and province `ON`. -/
theorem total_tax_not_monotone_at_bracket3 :
    (Backend.calculateCanadianTax 127439 0 "single" "ON").tax <
      (Backend.calculateCanadianTax 127438 0 "single" "ON").tax ∧
    (Backend.calculateCanadianTax 127439 0 "single" "ON").tax = 32889 ∧
    (Backend.calculateCanadianTax 127438 0 "single" "ON").tax = 32899 := by
  simp only [Backend.calculateCanadianTax, Backend.taxableIncomeOf, Backend.totalDeductionsOf,
    Backend.basicPersonalAmount, Backend.federalTaxOn, Backend.provincialTaxOn,
    Backend.cppContributionOf, Backend.eiContributionOf, Backend.rrspRoomOf,
    Backend.maxCppEarnings, Backend.cppExemption, Backend.cppRate, Backend.maxEiEarnings,
    Backend.eiRate, Backend.getMarginalRate, roundJS, min_def, max_def]
  norm_num

/-- Claim C9: for every income, the RRSP room equals
`min (income * 0.18) 31560`, is at most the configured maximum `31560`,
equals `income * 0.18` whenever that product is below the maximum, and the
frontend `maxRRSPContribution` computes the same quantity. -/
theorem rrsp_room_spec (income : ℚ) (hi : 0 ≤ income) :
    Backend.rrspRoomOf income = min (income * 0.18) 31560 ∧
    Backend.rrspRoomOf income ≤ 31560 ∧
    (income * 0.18 < 31560 → Backend.rrspRoomOf income = income * 0.18) ∧
    Frontend.maxRRSPContribution income = Backend.rrspRoomOf income := by
  refine ⟨rfl, min_le_right _ _, fun h => ?_, rfl⟩
  exact min_eq_left h.le

/-- Claim C9, witness: at `income = 10000`, `10000 * 0.18 = 1800 < 31560`
and the RRSP room is `1800`. -/
theorem rrsp_room_spec_witness :
    Backend.rrspRoomOf 10000 = min (10000 * 0.18) 31560 ∧
    Backend.rrspRoomOf 10000 ≤ 31560 ∧
    ((10000 : ℚ) * 0.18 < 31560 → Backend.rrspRoomOf 10000 = 10000 * 0.18) ∧
    Frontend.maxRRSPContribution 10000 = Backend.rrspRoomOf 10000 :=
  rrsp_room_spec 10000 (by norm_num)

/-- The default-or-last element of a list is the default or a member of the
list; stated as membership in the list with the default prepended. -/
theorem getLastD_mem_cons {α : Type} (l : List α) (a : α) : l.getLastD a ∈ a :: l := by
  induction l generalizing a with
  | nil => simp [List.getLastD]
  | cons b t ih =>
    rw [List.getLastD_cons]
    exact List.mem_cons_of_mem _ (ih b)

/-- Claim C7: the province comparison computes one full tax result per
province (its result list is a permutation of the per-province calculation
results), the best entry's total tax bounds every entry's total tax from
below, `potentialSavings` equals `worst.totalTax - best.totalTax` and is
non-negative, and a province set of size outside `[2, 5]` fails with
`InvalidInputError`. -/
theorem compareProvinces_spec (income deductions : ℚ) (filingStatus : String)
    (provinces : List String) :
    ((provinces.length < 2 ∨ 5 < provinces.length) →
      Comparator.compareProvinces income deductions filingStatus provinces =
        Except.error Comparator.CompareError.invalidInput) ∧
    (2 ≤ provinces.length → provinces.length ≤ 5 →
      ∃ r, Comparator.compareProvinces income deductions filingStatus provinces =
            Except.ok r ∧
        r.perProvince.Perm (provinces.map fun p =>
          (p, Backend.calculateCanadianTax income deductions filingStatus p)) ∧
        (∀ e ∈ r.perProvince, r.best.2.tax ≤ e.2.tax) ∧
        r.potentialSavings = r.worst.2.tax - r.best.2.tax ∧
        0 ≤ r.potentialSavings) := by
  constructor
  · intro h
    unfold Comparator.compareProvinces
    rw [if_pos h]
  · intro h2 h5
    have hcond : ¬(provinces.length < 2 ∨ 5 < provinces.length) := by omega
    set results := provinces.map
      (fun p => (p, Backend.calculateCanadianTax income deductions filingStatus p)) with hres
    have hlen : (results.insertionSort Comparator.taxLE).length = provinces.length := by
      rw [List.length_insertionSort, hres, List.length_map]
    have hsorted := List.sorted_insertionSort Comparator.taxLE results
    have hperm := List.perm_insertionSort Comparator.taxLE results
    cases hs : results.insertionSort Comparator.taxLE with
    | nil =>
      rw [hs] at hlen
      simp at hlen
      omega
    | cons b rest =>
      rw [hs] at hsorted hperm
      refine ⟨⟨b :: rest, b, rest.getLastD b, (rest.getLastD b).2.tax - b.2.tax⟩,
        ?_, hperm, ?_, rfl, ?_⟩
      · unfold Comparator.compareProvinces
        rw [if_neg hcond, ← hres, hs]
      · intro e he
        rcases List.mem_cons.mp he with rfl | hmem
        · exact le_refl _
        · exact List.rel_of_sorted_cons hsorted e hmem
      · have hm : rest.getLastD b ∈ b :: rest := getLastD_mem_cons rest b
        have hle : Comparator.taxLE b (rest.getLastD b) := by
          rcases List.mem_cons.mp hm with he | hmem
          · rw [he]
            exact le_refl b.2.tax
          · exact List.rel_of_sorted_cons hsorted _ hmem
        exact sub_nonneg.mpr hle

/-- Claim C7 witness: an empty province set fails with `InvalidInputError`,
while the two-province set `["ON", "BC"]` succeeds with non-negative
potential savings. -/
theorem compareProvinces_spec_witness :
    Comparator.compareProvinces 0 0 "single" [] =
      Except.error Comparator.CompareError.invalidInput ∧
    ∃ r, Comparator.compareProvinces 60000 0 "single" ["ON", "BC"] = Except.ok r ∧
      0 ≤ r.potentialSavings := by
  constructor
  · exact (compareProvinces_spec 0 0 "single" []).1 (by decide)
  · obtain ⟨r, hok, _, _, _, hpos⟩ :=
      (compareProvinces_spec 60000 0 "single" ["ON", "BC"]).2 (by decide) (by decide)
    exact ⟨r, hok, hpos⟩

/-- Claim C10: in the backend calculation, any province other than `"ON"`
yields a provincial tax of `0`: the provincial bracket computation is gated
on `province === 'ON'`. -/
theorem non_ontario_provincial_tax_zero (income deductions : ℚ)
    (filingStatus province : String) (h : province ≠ "ON") :
    (Backend.calculateCanadianTax income deductions filingStatus province).provincialTax = 0 := by
  simp only [Backend.calculateCanadianTax, Backend.provincialTaxOn, h, false_and, if_false,
    roundJS]
  norm_num

/-- Claim C10, witness: with province `"BC"` the backend provincial tax is
`0` at income `100000`. -/
theorem non_ontario_provincial_tax_zero_witness :
    (Backend.calculateCanadianTax 100000 0 "single" "BC").provincialTax = 0 :=
  non_ontario_provincial_tax_zero 100000 0 "single" "BC" (by decide)

end TaxEngine
